import Mathlib

/-!
# Deployment reconciliation of the OpenTelemetry operator

A shallow embedding of `pkg/controller/opentelemetryservice/reconcile_deployment.go`.

Go maps are reference values.  The two map fields of the instance carried by
the context are nil or refer to map objects; `deployment` binds local variables
to those very objects and writes through them.  The embedding therefore passes
an explicit state: the instance, the messages received by the logger, the map
objects that exist when the pass starts, by address, and the map objects
allocated since.  A map value is a `MapRef`: nil, the address of an object that
existed before, or an allocated map.  The two fields of an instance may hold
the same address: they are then one map object.
-/

namespace Otel

/-- Contents of a Go `map[string]string`: an association list with distinct keys. -/
abbrev GoMap := AList (fun _ : String => String)

/-- A Go map value: the nil map, a reference to a map object that exists when
the pass starts, or a reference to a map object allocated since. -/
inductive MapRef
  | nil
  | object (a : Nat)
  | allocated (n : Nat)
  deriving DecidableEq, Repr

/-- The fields of `v1alpha1.OpenTelemetryServiceSpec` read by `deployment`. -/
structure OpenTelemetryServiceSpec where
  Image : String
  Replicas : Option Int
  Args : Option Nat
  deriving DecidableEq, Repr

/-- The fields of `v1alpha1.OpenTelemetryService` read by `deployment`; a map
field is `none` when the Go field is nil and otherwise holds the address of the
map object the field refers to. -/
structure OpenTelemetryService where
  Name : String
  Namespace : String
  Annotations : Option Nat
  Spec : OpenTelemetryServiceSpec
  deriving DecidableEq, Repr

/-- The values carried by `ctx`, the contents of the map objects that exist
when the pass starts, by address, and the maps allocated so far. -/
structure State where
  ContextInstance : Option OpenTelemetryService
  ContextLogger : Option (List String)
  objects : Nat → GoMap
  allocated : List GoMap

/-- The objects `objs` with the object at address `a` holding `m`. -/
def store (objs : Nat → GoMap) (a : Nat) (m : GoMap) : Nat → GoMap :=
  fun x => if x = a then m else objs x

/-- Dereference a map value: the contents of the map object it refers to, if any. -/
def State.deref (s : State) : MapRef → Option GoMap
  | .nil => none
  | .object a => some (s.objects a)
  | .allocated n => s.allocated.get? n

/-- The Go expression `instance.Annotations`: nil, or the map object the field
refers to. -/
def OpenTelemetryService.annotationsRef (i : OpenTelemetryService) : MapRef :=
  match i.Annotations with
  | some a => .object a
  | none => .nil

/-- The Go expression `instance.Spec.Args`: nil, or the map object the field
refers to. -/
def OpenTelemetryService.argsRef (i : OpenTelemetryService) : MapRef :=
  match i.Spec.Args with
  | some a => .object a
  | none => .nil

/-- Allocation of a map object with the given entries; the Go expression
`map[string]string{}` is `newMap ∅`. -/
def State.newMap (s : State) (init : GoMap) : MapRef × State :=
  (.allocated s.allocated.length, { s with allocated := s.allocated ++ [init] })

/-- The Go statement `m[k] = v`.  Writing to the nil map panics (`none`); writing
through a reference updates the map object it refers to. -/
def State.mapAssign (s : State) (m : MapRef) (k v : String) : Option State :=
  match m with
  | .nil => none
  | .object a => some { s with objects := store s.objects a ((s.objects a).insert k v) }
  | .allocated n =>
    match s.allocated.get? n with
    | some a => some { s with allocated := s.allocated.set n (a.insert k v) }
    | none => none

/-- The Go expression `_, exists := m[k]`; reading the nil map finds nothing. -/
def State.mapExists (s : State) (m : MapRef) (k : String) : Bool :=
  match s.deref m with
  | some a => (a.lookup k).isSome
  | none => false

/-- The call `logger.Info(msg)`: the logger of the context receives `msg`. -/
def State.logInfo (s : State) (msg : String) : State :=
  { s with ContextLogger := s.ContextLogger.map fun l => l ++ [msg] }

/-- An order in which `range` may visit the entries of a map: Go leaves the
iteration order of a map unspecified, so any rearrangement is possible. -/
structure RangeOrder where
  order : List (Sigma fun _ : String => String) → List (Sigma fun _ : String => String)
  perm : ∀ l, (order l).Perm l

/-- The iteration order that visits the entries as they are stored. -/
def RangeOrder.stored : RangeOrder := ⟨fun l => l, fun l => List.Perm.refl l⟩

/-- The iteration order that visits the entries in reverse. -/
def RangeOrder.reversed : RangeOrder := ⟨fun l => l.reverse, fun l => List.reverse_perm l⟩

/-- What `deployment` reads from outside the context: the image configured under
`opentelemetry.OtelSvcImageConfigKey` (`viper.GetString`), the constant
`opentelemetry.CollectorConfigMapEntry`, the entries of the map computed by
`commonLabels` (`none` for a nil map), and the order in which `range` visits the
argument map. -/
structure Env where
  OtelSvcImage : String
  CollectorConfigMapEntry : String
  commonLabels : Option GoMap
  rangeOrder : RangeOrder

/-- Modelled from the spec: commonLabels is defined in another file of the
package.  The spec describes it as the provider of the label mapping shared by
all resources of the instance, deterministic per instance; it is modelled as
returning a map object of its own holding the entries given by the environment,
or the nil map when the environment gives none. -/
def commonLabels (env : Env) (s : State) : MapRef × State :=
  match env.commonLabels with
  | some c => s.newMap c
  | none => (.nil, s)

structure OwnerReference where
  Kind : String
  Name : String
  Controller : Bool
  deriving DecidableEq, Repr

structure ObjectMeta where
  Name : String := ""
  Namespace : String := ""
  Labels : MapRef
  Annotations : MapRef
  OwnerReferences : List OwnerReference := []
  deriving DecidableEq, Repr

structure LabelSelector where
  MatchLabels : MapRef
  deriving DecidableEq, Repr

structure VolumeMount where
  Name : String
  MountPath : String
  deriving DecidableEq, Repr

structure Container where
  Name : String
  Image : String
  VolumeMounts : List VolumeMount
  Args : List String
  deriving DecidableEq, Repr

structure KeyToPath where
  Key : String
  Path : String
  deriving DecidableEq, Repr

structure ConfigMapVolumeSource where
  Name : String
  Items : List KeyToPath
  deriving DecidableEq, Repr

structure Volume where
  Name : String
  ConfigMap : Option ConfigMapVolumeSource
  deriving DecidableEq, Repr

structure PodSpec where
  Containers : List Container
  Volumes : List Volume
  deriving DecidableEq, Repr

structure PodTemplateSpec where
  ObjectMeta : ObjectMeta
  Spec : PodSpec
  deriving DecidableEq, Repr

structure DeploymentSpec where
  Replicas : Option Int
  Selector : Option LabelSelector
  Template : PodTemplateSpec
  deriving DecidableEq, Repr

/-- The fields of `appsv1.Deployment` that `deployment` fills in. -/
structure Deployment where
  ObjectMeta : ObjectMeta
  Spec : DeploymentSpec
  deriving DecidableEq, Repr

/-- The text `fmt.Sprintf("--%s=%s", k, v)` of one entry of the argument map. -/
def flag (e : Sigma fun _ : String => String) : String :=
  "--" ++ e.1 ++ "=" ++ e.2

/-- The function `deployment(ctx)`.  The result is `none` when the Go code
panics: a failed type assertion on a context value, or a write to a nil map. -/
def deployment (env : Env) (s : State) : Option (Deployment × State) := do
  let inst ← s.ContextInstance
  let _ ← s.ContextLogger
  let name := inst.Name ++ "-collector"
  let image := if inst.Spec.Image.utf8ByteSize = 0 then env.OtelSvcImage else inst.Spec.Image
  let (labels, s) := commonLabels env s
  let s ← s.mapAssign labels "app.kubernetes.io/name" name
  let specAnnotations := inst.annotationsRef
  let (specAnnotations, s) := if specAnnotations = .nil then s.newMap ∅ else (specAnnotations, s)
  let s ← s.mapAssign specAnnotations "prometheus.io/scrape" "true"
  let s ← s.mapAssign specAnnotations "prometheus.io/port" "8888"
  let s ← s.mapAssign specAnnotations "prometheus.io/path" "/metrics"
  let argsMap := inst.argsRef
  let (argsMap, s) := if argsMap = .nil then s.newMap ∅ else (argsMap, s)
  let s := if s.mapExists argsMap "config" then
      s.logInfo "the 'config' flag isn't allowed and is being ignored"
    else s
  let s ← s.mapAssign argsMap "config" ("/conf/" ++ env.CollectorConfigMapEntry)
  let entries ← (s.deref argsMap).map fun a => a.entries
  let args := (env.rangeOrder.order entries).map flag
  let inst ← s.ContextInstance
  return ({
    ObjectMeta := {
      Name := name
      Namespace := inst.Namespace
      Labels := labels
      Annotations := inst.annotationsRef }
    Spec := {
      Replicas := inst.Spec.Replicas
      Selector := some { MatchLabels := labels }
      Template := {
        ObjectMeta := {
          Labels := labels
          Annotations := specAnnotations }
        Spec := {
          Containers := [{
            Name := "opentelemetry-service"
            Image := image
            VolumeMounts := [{ Name := name, MountPath := "/conf" }]
            Args := args }]
          Volumes := [{
            Name := name
            ConfigMap := some {
              Name := name
              Items := [{ Key := env.CollectorConfigMapEntry, Path := env.CollectorConfigMapEntry }] } }] } } } }, s)

/-- Modelled from the spec: setControllerReference is a method of the reconciler
defined in another file of the package.  The spec says it "mutates the child
descriptor in place to record owning-instance lineage": it is modelled as adding
to the owner references of the descriptor one controller reference that names
the instance of the context, and as touching nothing else. -/
def setControllerReference (s : State) (desired : Deployment) : Deployment :=
  match s.ContextInstance with
  | some inst =>
    { desired with ObjectMeta := { desired.ObjectMeta with
        OwnerReferences := desired.ObjectMeta.OwnerReferences ++
          [{ Kind := "OpenTelemetryService", Name := inst.Name, Controller := true }] } }
  | none => desired

/-- An error value of the cluster API client: the reason of its status and its
message. -/
structure Error where
  reason : String
  message : String
  deriving DecidableEq, Repr

/-- The test `errors.IsNotFound(err)` of the API machinery. -/
def IsNotFound (err : Error) : Bool :=
  err.reason = "NotFound"

/-- The key `types.NamespacedName`. -/
structure NamespacedName where
  Name : String
  Namespace : String
  deriving DecidableEq, Repr

/-- The cluster API client, as far as `reconcileDeployment` uses it: the error
(or `none` for nil) that `Get` returns for a key and that `Create` returns for
an object, given the state the call is made in.  The object that `Get` stores
into `expected` is never read by `reconcileDeployment` and is not represented. -/
structure Client where
  Get : State → NamespacedName → Option Error
  Create : State → Deployment → Option Error

/-- A call made on the client. -/
inductive Call
  | Get (key : NamespacedName)
  | Create (obj : Deployment)
  deriving DecidableEq, Repr

/-- Whether a call is a `Create`. -/
def Call.isCreate : Call → Bool
  | .Create _ => true
  | .Get _ => false

/-- Whether a call is a `Get`. -/
def Call.isGet : Call → Bool
  | .Get _ => true
  | .Create _ => false

/-- The receiver `ReconcileOpenTelemetryService`. -/
structure ReconcileOpenTelemetryService where
  client : Client

/-- What a pass of `reconcileDeployment` leaves behind: the error it returns
(`none` for nil), the calls it made on the client in order, and the state. -/
structure Outcome where
  err : Option Error
  calls : List Call
  state : State

/-- The method `reconcileDeployment(ctx)`; `none` when `deployment` panics. -/
def reconcileDeployment (r : ReconcileOpenTelemetryService) (env : Env) (s : State) :
    Option Outcome := do
  let (desired, s) ← deployment env s
  let desired := setControllerReference s desired
  let key : NamespacedName := { Name := desired.ObjectMeta.Name, Namespace := desired.ObjectMeta.Namespace }
  let err := r.client.Get s key
  match err with
  | some e =>
    if IsNotFound e then
      match r.client.Create s desired with
      | some err => return ⟨some err, [.Get key, .Create desired], s⟩
      | none => return ⟨none, [.Get key, .Create desired], s⟩
    else
      return ⟨some e, [.Get key], s⟩
  | none => return ⟨none, [.Get key], s⟩

/-- The state of a context that carries the instance `inst` and a logger that
has received the messages `log`, with `objs` the map objects that exist already
and `heap` the maps allocated so far. -/
def State.carrying (inst : OpenTelemetryService) (log : List String) (objs : Nat → GoMap)
    (heap : List GoMap) : State :=
  { ContextInstance := some inst, ContextLogger := some log, objects := objs, allocated := heap }

/-- The environment `env` with `commonLabels` computing a map of entries `c`. -/
def Env.withLabels (env : Env) (c : GoMap) : Env :=
  { env with commonLabels := some c }

/-! ## Closed forms used in the proofs -/

/-- Entries of the label map after line 51. -/
def labelsOf (c : GoMap) (inst : OpenTelemetryService) : GoMap :=
  c.insert "app.kubernetes.io/name" (inst.Name ++ "-collector")

/-- Entries of a map after lines 58 to 60 wrote to it. -/
def withScrape (m : GoMap) : GoMap :=
  ((m.insert "prometheus.io/scrape" "true").insert "prometheus.io/port" "8888").insert
    "prometheus.io/path" "/metrics"

/-- The map objects after line 60. -/
def objectsScraped (inst : OpenTelemetryService) (objs : Nat → GoMap) : Nat → GoMap :=
  match inst.Annotations with
  | some a => store objs a (withScrape (objs a))
  | none => objs

/-- Entries of the map bound to `argsMap` when line 67 tests it. -/
def argsBefore (inst : OpenTelemetryService) (objs : Nat → GoMap) : GoMap :=
  match inst.Spec.Args with
  | some b => objectsScraped inst objs b
  | none => ∅

/-- Entries of the map bound to `argsMap` after line 72. -/
def argsOf (env : Env) (inst : OpenTelemetryService) (objs : Nat → GoMap) : GoMap :=
  (argsBefore inst objs).insert "config" ("/conf/" ++ env.CollectorConfigMapEntry)

/-- The map objects once `deployment` has returned. -/
def objectsAfter (env : Env) (inst : OpenTelemetryService) (objs : Nat → GoMap) : Nat → GoMap :=
  match inst.Spec.Args with
  | some b => store (objectsScraped inst objs) b (argsOf env inst objs)
  | none => objectsScraped inst objs

/-- Entries of the pod-template annotations once `deployment` has returned. -/
def annotationsOf (env : Env) (inst : OpenTelemetryService) (objs : Nat → GoMap) : GoMap :=
  match inst.Annotations with
  | some a => objectsAfter env inst objs a
  | none => withScrape ∅

/-- The messages of the logger once `deployment` has returned. -/
def logAfter (inst : OpenTelemetryService) (objs : Nat → GoMap) (log : List String) :
    List String :=
  if ((argsBefore inst objs).lookup "config").isSome then
    log ++ ["the 'config' flag isn't allowed and is being ignored"]
  else log

/-- The allocated maps once `deployment` has returned. -/
def heapAfter (env : Env) (c : GoMap) (inst : OpenTelemetryService) (objs : Nat → GoMap)
    (heap : List GoMap) : List GoMap :=
  heap ++ [labelsOf c inst] ++
    (if inst.Annotations.isSome then [] else [withScrape ∅]) ++
    (if inst.Spec.Args.isSome then [] else [argsOf env inst objs])

/-- The descriptor that `deployment` returns when `n` maps were allocated before. -/
def desiredOf (env : Env) (inst : OpenTelemetryService) (objs : Nat → GoMap) (n : Nat) :
    Deployment :=
  { ObjectMeta := {
      Name := inst.Name ++ "-collector"
      Namespace := inst.Namespace
      Labels := .allocated n
      Annotations := inst.annotationsRef }
    Spec := {
      Replicas := inst.Spec.Replicas
      Selector := some { MatchLabels := .allocated n }
      Template := {
        ObjectMeta := {
          Labels := .allocated n
          Annotations := match inst.Annotations with
            | some a => .object a
            | none => .allocated (n + 1) }
        Spec := {
          Containers := [{
            Name := "opentelemetry-service"
            Image := if inst.Spec.Image.utf8ByteSize = 0 then env.OtelSvcImage else inst.Spec.Image
            VolumeMounts := [{ Name := inst.Name ++ "-collector", MountPath := "/conf" }]
            Args := (env.rangeOrder.order (argsOf env inst objs).entries).map flag }]
          Volumes := [{
            Name := inst.Name ++ "-collector"
            ConfigMap := some {
              Name := inst.Name ++ "-collector"
              Items := [{ Key := env.CollectorConfigMapEntry, Path := env.CollectorConfigMapEntry }] } }] } } } }

/-! ## Concrete inputs -/

/-- An environment with the default image and the entry name of the scenario. -/
def demoEnv : Env :=
  { OtelSvcImage := "otel/collector:latest"
    CollectorConfigMapEntry := "collector.yaml"
    commonLabels := none
    rangeOrder := RangeOrder.stored }

/-- A common label map. -/
def demoLabels : GoMap :=
  AList.singleton "app.kubernetes.io/managed-by" "opentelemetry-operator"

/-- Map objects that exist before a pass: at address 0 `{team: obs}`, at 1
`{log-level: debug}`, at 2 the same with `config` set by the author, at 3 a map
with the keys `config` and `config=x`; the empty map elsewhere. -/
def demoObjects : Nat → GoMap
  | 0 => AList.singleton "team" "obs"
  | 1 => AList.singleton "log-level" "debug"
  | 2 => (AList.singleton "log-level" "debug").insert "config" "/etc/otel.yaml"
  | 3 => (AList.singleton "config=x" "y").insert "config" "x=y"
  | _ => ∅

/-- An instance whose annotation map and argument map are two non-nil maps with
one user entry each, none of them under a key that `deployment` writes. -/
def annotatedInstance : OpenTelemetryService :=
  { Name := "demo"
    Namespace := "ns1"
    Annotations := some 0
    Spec := { Image := "", Replicas := none, Args := some 1 } }

/-- The instance of the scenario: no annotations, no image, one argument. -/
def scenarioInstance : OpenTelemetryService :=
  { Name := "demo"
    Namespace := "ns1"
    Annotations := none
    Spec := { Image := "", Replicas := none, Args := some 1 } }

/-- The environment of the scenario with `range` visiting the argument map in
the order `ord`. -/
def scenarioEnv (ord : RangeOrder) : Env :=
  { demoEnv with rangeOrder := ord }

/-- An instance like `annotatedInstance` whose author also supplied `config`. -/
def configuredInstance : OpenTelemetryService :=
  { annotatedInstance with Spec := { annotatedInstance.Spec with Args := some 2 } }

/-- An instance whose annotations and arguments are one and the same map object. -/
def sharedInstance : OpenTelemetryService :=
  { annotatedInstance with Spec := { annotatedInstance.Spec with Args := some 0 } }

/-- An instance whose author supplied `config` with the value `x=y` next to an
argument named `config=x` with the value `y`. -/
def collidingInstance : OpenTelemetryService :=
  { scenarioInstance with Spec := { scenarioInstance.Spec with Args := some 3 } }

def notFoundError : Error := { reason := "NotFound", message := "deployment not found" }

def alreadyExistsError : Error := { reason := "AlreadyExists", message := "deployment exists" }

def timeoutError : Error := { reason := "Timeout", message := "request timed out" }

/-- The key of the child of the instance `demo` in `ns1`. -/
def demoKey : NamespacedName := { Name := "demo-collector", Namespace := "ns1" }

/-- A cluster that lacks only the child of `demo`, and creates successfully. -/
def creatingClient : Client :=
  { Get := fun _ key => if key = demoKey then some notFoundError else none
    Create := fun _ _ => none }

/-- A cluster that lacks only the child of `demo`, and whose creation conflicts
with another creator. -/
def conflictingClient : Client :=
  { Get := fun _ key => if key = demoKey then some notFoundError else none
    Create := fun _ _ => some alreadyExistsError }

/-- A cluster that holds the child of `demo` and nothing else. -/
def existingClient : Client :=
  { Get := fun _ key => if key = demoKey then none else some notFoundError
    Create := fun _ _ => some alreadyExistsError }

/-- A cluster whose read of the child of `demo` times out, and that lacks
everything else. -/
def unreachableClient : Client :=
  { Get := fun _ key => if key = demoKey then some timeoutError else some notFoundError
    Create := fun _ _ => none }

/-! ## Lemmas on the heap -/

theorem get?_append_add {α : Type} (h t : List α) (i : Nat) :
    (h ++ t).get? (h.length + i) = t.get? i := by
  simp [List.getElem?_append_right]

theorem set_append_add {α : Type} (h t : List α) (i : Nat) (x : α) :
    (h ++ t).set (h.length + i) x = h ++ t.set i x := by
  simp [List.set_append]

theorem get?_append_zero {α : Type} (h t : List α) :
    (h ++ t).get? h.length = t.get? 0 := by
  have h0 := get?_append_add h t 0
  rwa [Nat.add_zero] at h0

theorem set_append_zero {α : Type} (h t : List α) (x : α) :
    (h ++ t).set h.length x = h ++ t.set 0 x := by
  have h0 := set_append_add h t 0 x
  rwa [Nat.add_zero] at h0

theorem store_same (objs : Nat → GoMap) (a : Nat) (m : GoMap) : store objs a m a = m := by
  simp [store]

theorem store_other (objs : Nat → GoMap) (a b : Nat) (m : GoMap) (h : b ≠ a) :
    store objs a m b = objs b := by
  simp [store, h]

theorem store_store (objs : Nat → GoMap) (a : Nat) (m m' : GoMap) :
    store (store objs a m) a m' = store objs a m' := by
  funext x
  by_cases h : x = a <;> simp [store, h]

/-- Closed form of `deployment` on a context that carries an instance and a
logger, with `commonLabels` returning a map: it returns, and this is what it
returns and the state it leaves. -/
theorem deployment_carrying (env : Env) (c : GoMap) (inst : OpenTelemetryService)
    (log : List String) (objs : Nat → GoMap) (heap : List GoMap) :
    deployment (env.withLabels c) (State.carrying inst log objs heap) =
      some (desiredOf env inst objs heap.length,
        State.carrying inst (logAfter inst objs log) (objectsAfter env inst objs)
          (heapAfter env c inst objs heap)) := by
  obtain ⟨n, ns, ann, ⟨img, rep, ar⟩⟩ := inst
  rcases ann with _ | a <;> rcases ar with _ | b
  case none.none =>
    simp [deployment, Env.withLabels, State.carrying, commonLabels, State.newMap,
      State.mapAssign, OpenTelemetryService.annotationsRef, OpenTelemetryService.argsRef,
      State.mapExists, State.deref, State.logInfo, bind, Option.bind, get?_append_add,
      set_append_add, get?_append_zero, set_append_zero, labelsOf, withScrape, argsOf,
      argsBefore, objectsScraped, objectsAfter, logAfter, heapAfter, desiredOf, store_same,
      store_store, -List.get?_eq_getElem?]
  case some.none =>
    simp [deployment, Env.withLabels, State.carrying, commonLabels, State.newMap,
      State.mapAssign, OpenTelemetryService.annotationsRef, OpenTelemetryService.argsRef,
      State.mapExists, State.deref, State.logInfo, bind, Option.bind, get?_append_add,
      set_append_add, get?_append_zero, set_append_zero, labelsOf, withScrape, argsOf,
      argsBefore, objectsScraped, objectsAfter, logAfter, heapAfter, desiredOf, store_same,
      store_store, -List.get?_eq_getElem?]
  case none.some =>
    by_cases h : (AList.lookup "config" (objs b)).isSome = true <;>
    simp [deployment, Env.withLabels, State.carrying, commonLabels, State.newMap,
      State.mapAssign, OpenTelemetryService.annotationsRef, OpenTelemetryService.argsRef,
      State.mapExists, State.deref, State.logInfo, bind, Option.bind, get?_append_add,
      set_append_add, get?_append_zero, set_append_zero, labelsOf, withScrape, argsOf,
      argsBefore, objectsScraped, objectsAfter, logAfter, heapAfter, desiredOf, store_same,
      store_store, h, -List.get?_eq_getElem?]
  case some.some =>
    by_cases h : (AList.lookup "config"
        (store objs a (AList.insert "prometheus.io/path" "/metrics"
          (AList.insert "prometheus.io/port" "8888"
            (AList.insert "prometheus.io/scrape" "true" (objs a)))) b)).isSome = true <;>
    simp [deployment, Env.withLabels, State.carrying, commonLabels, State.newMap,
      State.mapAssign, OpenTelemetryService.annotationsRef, OpenTelemetryService.argsRef,
      State.mapExists, State.deref, State.logInfo, bind, Option.bind, get?_append_add,
      set_append_add, get?_append_zero, set_append_zero, labelsOf, withScrape, argsOf,
      argsBefore, objectsScraped, objectsAfter, logAfter, heapAfter, desiredOf, store_same,
      store_store, h, -List.get?_eq_getElem?]

/-! ## Pointwise contents of the maps a pass leaves -/

/-- Pointwise contents of a map after lines 58 to 60 wrote to it. -/
theorem lookup_withScrape (m : GoMap) (k : String) :
    (withScrape m).lookup k =
      if k = "prometheus.io/scrape" then some "true"
      else if k = "prometheus.io/port" then some "8888"
      else if k = "prometheus.io/path" then some "/metrics"
      else m.lookup k := by
  unfold withScrape
  by_cases h3 : k = "prometheus.io/path"
  · subst h3
    rw [AList.lookup_insert]
    simp
  · rw [AList.lookup_insert_ne h3]
    by_cases h2 : k = "prometheus.io/port"
    · subst h2
      rw [AList.lookup_insert]
      simp
    · rw [AList.lookup_insert_ne h2]
      by_cases h1 : k = "prometheus.io/scrape"
      · subst h1
        rw [AList.lookup_insert]
        simp
      · rw [AList.lookup_insert_ne h1]
        simp only [h1, h2, h3, if_false]

/-- Pointwise contents of a map after `m[k] = v`. -/
theorem lookup_insert_ite (m : GoMap) (k v x : String) :
    (m.insert k v).lookup x = if x = k then some v else m.lookup x := by
  by_cases h : x = k
  · subst h
    rw [AList.lookup_insert, if_pos rfl]
  · rw [AList.lookup_insert_ne h, if_neg h]

/-- Pointwise contents of the map objects after line 60. -/
theorem lookup_objectsScraped (inst : OpenTelemetryService) (objs : Nat → GoMap) (x : Nat)
    (k : String) :
    (objectsScraped inst objs x).lookup k =
      if inst.Annotations = some x then (withScrape (objs x)).lookup k
      else (objs x).lookup k := by
  unfold objectsScraped
  rcases h : inst.Annotations with _ | a
  · simp
  · by_cases hx : x = a
    · subst hx
      simp [store_same]
    · have hne : ¬ a = x := fun e => hx e.symm
      simp [store_other _ _ _ _ hx, hne]

/-- Pointwise contents of the map bound to `argsMap` when line 67 tests it. -/
theorem lookup_argsBefore (inst : OpenTelemetryService) (objs : Nat → GoMap) (k : String) :
    (argsBefore inst objs).lookup k =
      match inst.Spec.Args with
      | some b =>
        if inst.Annotations = some b then (withScrape (objs b)).lookup k
        else (objs b).lookup k
      | none => none := by
  unfold argsBefore
  rcases h : inst.Spec.Args with _ | b
  · simp
  · simp only [lookup_objectsScraped]

/-- Lines 58 to 60 do not touch the key `config`. -/
theorem lookup_config_argsBefore (inst : OpenTelemetryService) (objs : Nat → GoMap) :
    (argsBefore inst objs).lookup "config" =
      inst.Spec.Args.bind fun b => (objs b).lookup "config" := by
  rw [lookup_argsBefore]
  rcases h : inst.Spec.Args with _ | b
  · rfl
  · simp only [lookup_withScrape, Option.some_bind, Option.bind]
    have h1 : ¬ ("config" = "prometheus.io/scrape") := by decide
    have h2 : ¬ ("config" = "prometheus.io/port") := by decide
    have h3 : ¬ ("config" = "prometheus.io/path") := by decide
    simp only [h1, h2, h3, if_false, ite_self]

/-- Pointwise contents of the map objects once `deployment` has returned. -/
theorem lookup_objectsAfter (env : Env) (inst : OpenTelemetryService) (objs : Nat → GoMap)
    (x : Nat) (k : String) :
    (objectsAfter env inst objs x).lookup k =
      if inst.Spec.Args = some x then (argsOf env inst objs).lookup k
      else (objectsScraped inst objs x).lookup k := by
  unfold objectsAfter
  rcases h : inst.Spec.Args with _ | b
  · simp
  · by_cases hx : x = b
    · subst hx
      simp [store_same]
    · have hne : ¬ b = x := fun e => hx e.symm
      simp [store_other _ _ _ _ hx, hne]

/-- Maps with the same value at every key have the same entries up to order. -/
theorem entries_perm_of_lookup (m m' : GoMap) (h : ∀ k, m.lookup k = m'.lookup k) :
    m.entries.Perm m'.entries := by
  apply List.lookup_ext m.nodupKeys m'.nodupKeys
  intro k v
  have hk := h k
  unfold AList.lookup at hk
  rw [hk]

/-- Pointwise contents of the map bound to `argsMap` after line 72. -/
theorem lookup_argsOf (env : Env) (inst : OpenTelemetryService) (objs : Nat → GoMap)
    (k : String) :
    (argsOf env inst objs).lookup k =
      if k = "config" then some ("/conf/" ++ env.CollectorConfigMapEntry)
      else (argsBefore inst objs).lookup k := by
  unfold argsOf
  rw [lookup_insert_ite]

/-- A further pass on the same instance leaves every map object with the
contents the first pass gave it: it writes the same values under the same keys. -/
theorem lookup_objectsAfter_twice (env env2 : Env) (inst : OpenTelemetryService)
    (objs : Nat → GoMap) (he : env2.CollectorConfigMapEntry = env.CollectorConfigMapEntry)
    (x : Nat) (k : String) :
    (objectsAfter env2 inst (objectsAfter env inst objs) x).lookup k =
      (objectsAfter env inst objs x).lookup k := by
  obtain ⟨n, ns, ann, ⟨img, rep, ar⟩⟩ := inst
  rcases ann with _ | a <;> rcases ar with _ | b <;>
    simp only [lookup_objectsAfter, lookup_argsOf, lookup_argsBefore, lookup_objectsScraped,
      lookup_withScrape, he] <;>
    split_ifs <;> simp_all

/-- A further pass computes pointwise the same argument map. -/
theorem lookup_argsOf_twice (env env2 : Env) (inst : OpenTelemetryService)
    (objs : Nat → GoMap) (he : env2.CollectorConfigMapEntry = env.CollectorConfigMapEntry)
    (k : String) :
    (argsOf env2 inst (objectsAfter env inst objs)).lookup k =
      (argsOf env inst objs).lookup k := by
  obtain ⟨n, ns, ann, ⟨img, rep, ar⟩⟩ := inst
  rcases ann with _ | a <;> rcases ar with _ | b <;>
    simp only [lookup_objectsAfter, lookup_argsOf, lookup_argsBefore, lookup_objectsScraped,
      lookup_withScrape, he] <;>
    split_ifs <;> simp_all

/-! ## Lemmas on the result of `deployment` -/

/-- The flag generated from the forced `config` entry. -/
theorem flag_config (e : String) : flag ⟨"config", "/conf/" ++ e⟩ = "--config=/conf/" ++ e := by
  apply String.ext
  simp [flag]

/-- After `m[k] = v` exactly one entry of the map has the key `k`. -/
theorem filter_key_insert_entries (k v : String) (a : GoMap) :
    (a.insert k v).entries.filter (fun e => decide (e.1 = k)) = [⟨k, v⟩] := by
  have hk : k ∉ (List.kerase k a.entries).keys := List.not_mem_keys_kerase k a.nodupKeys
  have hnil : (List.kerase k a.entries).filter (fun e => decide (e.1 = k)) = [] := by
    rw [List.filter_eq_nil_iff]
    intro e he hek
    apply hk
    have : e.1 ∈ (List.kerase k a.entries).keys := List.mem_keys_of_mem he
    simpa using (of_decide_eq_true hek) ▸ this
  simp [AList.insert_entries, List.filter_cons, hnil]

/-- The label map of the descriptor, read after the call. -/
theorem deref_labels_after (env : Env) (c : GoMap) (inst i : OpenTelemetryService)
    (log : List String) (objs objs' : Nat → GoMap) (heap : List GoMap) :
    (State.carrying i log objs' (heapAfter env c inst objs heap)).deref
      (.allocated heap.length) = some (labelsOf c inst) := by
  simp only [State.deref, State.carrying, heapAfter, List.append_assoc]
  rw [get?_append_zero]
  rfl

/-- The pod-template annotations of the descriptor, read after the call. -/
theorem deref_annotations_after (env : Env) (c : GoMap) (inst : OpenTelemetryService)
    (log : List String) (objs : Nat → GoMap) (heap : List GoMap) :
    (State.carrying inst log (objectsAfter env inst objs) (heapAfter env c inst objs heap)).deref
      (desiredOf env inst objs heap.length).Spec.Template.ObjectMeta.Annotations =
      some (annotationsOf env inst objs) := by
  rcases h : inst.Annotations with _ | a
  · simp only [desiredOf, annotationsOf, h, Option.isSome_none, Bool.false_eq_true, if_false,
      State.deref, State.carrying, heapAfter, List.append_assoc]
    rw [get?_append_add]
    rfl
  · simp [desiredOf, annotationsOf, h, State.deref, State.carrying]

/-- Pointwise contents of the pod-template annotations: the forced `config`
shows in them exactly when the argument map is the annotation map. -/
theorem lookup_annotationsOf (env : Env) (inst : OpenTelemetryService) (objs : Nat → GoMap)
    (k : String) :
    (annotationsOf env inst objs).lookup k =
      if inst.Annotations.isSome ∧ inst.Spec.Args = inst.Annotations ∧ k = "config" then
        some ("/conf/" ++ env.CollectorConfigMapEntry)
      else if k = "prometheus.io/scrape" then some "true"
      else if k = "prometheus.io/port" then some "8888"
      else if k = "prometheus.io/path" then some "/metrics"
      else inst.Annotations.bind fun a => (objs a).lookup k := by
  have h1 : ¬ ("config" = "prometheus.io/scrape") := by decide
  have h2 : ¬ ("config" = "prometheus.io/port") := by decide
  have h3 : ¬ ("config" = "prometheus.io/path") := by decide
  obtain ⟨n, ns, ann, ⟨img, rep, ar⟩⟩ := inst
  rcases ann with _ | a
  · simp [annotationsOf, lookup_withScrape]
  · rcases ar with _ | b
    · simp [annotationsOf, lookup_objectsAfter, lookup_objectsScraped, lookup_withScrape]
    · by_cases hab : b = a
      · subst hab
        by_cases hk : k = "config"
        · subst hk
          simp [annotationsOf, lookup_objectsAfter, lookup_argsOf]
        · simp [annotationsOf, lookup_objectsAfter, lookup_argsOf, lookup_argsBefore,
            lookup_withScrape, hk]
      · have hba : ¬ a = b := fun e => hab e.symm
        simp [annotationsOf, lookup_objectsAfter, lookup_objectsScraped, lookup_withScrape,
          hab, hba]

/-- Closed form of the pass. -/
theorem reconcileDeployment_carrying (r : ReconcileOpenTelemetryService) (env : Env) (c : GoMap)
    (inst : OpenTelemetryService) (log : List String) (objs : Nat → GoMap)
    (heap : List GoMap) :
    reconcileDeployment r (env.withLabels c) (State.carrying inst log objs heap) =
      (let s' := State.carrying inst (logAfter inst objs log) (objectsAfter env inst objs)
        (heapAfter env c inst objs heap)
      let desired := setControllerReference s' (desiredOf env inst objs heap.length)
      let key : NamespacedName := ⟨inst.Name ++ "-collector", inst.Namespace⟩
      match r.client.Get s' key with
      | some e =>
        if IsNotFound e then
          some ⟨r.client.Create s' desired, [.Get key, .Create desired], s'⟩
        else some ⟨some e, [.Get key], s'⟩
      | none => some ⟨none, [.Get key], s'⟩) := by
  unfold reconcileDeployment
  rw [deployment_carrying]
  have hn : (setControllerReference
      (State.carrying inst (logAfter inst objs log) (objectsAfter env inst objs)
        (heapAfter env c inst objs heap))
      (desiredOf env inst objs heap.length)).ObjectMeta.Name = inst.Name ++ "-collector" := rfl
  have hns : (setControllerReference
      (State.carrying inst (logAfter inst objs log) (objectsAfter env inst objs)
        (heapAfter env c inst objs heap))
      (desiredOf env inst objs heap.length)).ObjectMeta.Namespace = inst.Namespace := rfl
  simp only [bind, Option.bind, hn, hns]
  cases hg : r.client.Get (State.carrying inst (logAfter inst objs log)
    (objectsAfter env inst objs) (heapAfter env c inst objs heap))
    ⟨inst.Name ++ "-collector", inst.Namespace⟩ with
  | none => rfl
  | some e =>
    by_cases hnf : IsNotFound e = true
    · simp only [hnf, if_true]
      cases r.client.Create (State.carrying inst (logAfter inst objs log)
        (objectsAfter env inst objs) (heapAfter env c inst objs heap))
        (setControllerReference (State.carrying inst (logAfter inst objs log)
          (objectsAfter env inst objs) (heapAfter env c inst objs heap))
          (desiredOf env inst objs heap.length)) <;> rfl
    · simp only [hnf]
      rfl

/-! ## The claims -/

/-- C1 (the code departs from the claim).  On an instance whose annotation map
and argument map are non-nil, `deployment` writes the three prometheus.io scrape
annotations and the forced `config` argument into the instance's own maps: the
keys are absent from the maps of the instance before the call and present in
them after it. -/
theorem deployment_writes_into_instance_maps :
    ∃ (d : Deployment) (s' : State),
      deployment (demoEnv.withLabels demoLabels)
        (State.carrying annotatedInstance [] demoObjects []) = some (d, s') ∧
      s'.ContextInstance = some annotatedInstance ∧
      (((State.carrying annotatedInstance [] demoObjects []).deref
        annotatedInstance.annotationsRef).bind fun m => m.lookup "prometheus.io/scrape") = none ∧
      (((State.carrying annotatedInstance [] demoObjects []).deref
        annotatedInstance.annotationsRef).bind fun m => m.lookup "prometheus.io/port") = none ∧
      (((State.carrying annotatedInstance [] demoObjects []).deref
        annotatedInstance.annotationsRef).bind fun m => m.lookup "prometheus.io/path") = none ∧
      (((State.carrying annotatedInstance [] demoObjects []).deref
        annotatedInstance.argsRef).bind fun m => m.lookup "config") = none ∧
      ((s'.deref annotatedInstance.annotationsRef).bind fun m =>
        m.lookup "prometheus.io/scrape") = some "true" ∧
      ((s'.deref annotatedInstance.annotationsRef).bind fun m =>
        m.lookup "prometheus.io/port") = some "8888" ∧
      ((s'.deref annotatedInstance.annotationsRef).bind fun m =>
        m.lookup "prometheus.io/path") = some "/metrics" ∧
      ((s'.deref annotatedInstance.argsRef).bind fun m => m.lookup "config") =
        some "/conf/collector.yaml" :=
  ⟨_, _, deployment_carrying demoEnv demoLabels annotatedInstance [] demoObjects [], rfl,
    by decide, by decide, by decide, by decide, by decide, by decide, by decide, by decide⟩

/-- C2 (counterexample).  The author sets `config` to `x=y` and an argument named
`config=x` to `y`: the argument list holds `--config=x=y`, the very text of the
flag of the user-supplied `config` value. -/
theorem deployment_user_config_text_in_list :
    ∃ (d : Deployment) (s' : State),
      deployment (demoEnv.withLabels demoLabels)
        (State.carrying collidingInstance [] demoObjects []) = some (d, s') ∧
      (((State.carrying collidingInstance [] demoObjects []).deref
        collidingInstance.argsRef).bind fun m => m.lookup "config") = some "x=y" ∧
      d.Spec.Template.Spec.Containers.map Container.Args =
        [["--config=/conf/collector.yaml", "--config=x=y"]] ∧
      flag ⟨"config", "x=y"⟩ = "--config=x=y" :=
  ⟨_, _, deployment_carrying demoEnv demoLabels collidingInstance [] demoObjects [],
    by decide, by decide, by decide⟩

/-- C2 (amended).  Whatever the instance's argument map holds under `config`, the
argument list of the single container is the list of flags of the entries `es`
visited by `range`, which are the entries of the argument map `m` as line 72
leaves it; `m` gives `config` the path `/conf/<CollectorConfigMapEntry>`,
exactly one entry of `es` has the key `config`, with that value, and its flag
`--config=/conf/<CollectorConfigMapEntry>` is in the list. -/
theorem deployment_config_argument (env : Env) (c : GoMap) (inst : OpenTelemetryService)
    (log : List String) (objs : Nat → GoMap) (heap : List GoMap) :
    ∃ (d : Deployment) (s' : State) (m : GoMap) (es : List (Sigma fun _ : String => String)),
      deployment (env.withLabels c) (State.carrying inst log objs heap) = some (d, s') ∧
      d.Spec.Template.Spec.Containers.map Container.Args = [es.map flag] ∧
      es.Perm m.entries ∧
      (s'.deref inst.argsRef = some m ∨ inst.Spec.Args = none) ∧
      m.lookup "config" = some ("/conf/" ++ env.CollectorConfigMapEntry) ∧
      es.filter (fun e => decide (e.1 = "config")) =
        [⟨"config", "/conf/" ++ env.CollectorConfigMapEntry⟩] ∧
      "--config=/conf/" ++ env.CollectorConfigMapEntry ∈ es.map flag := by
  have hp := env.rangeOrder.perm (argsOf env inst objs).entries
  have hf := filter_key_insert_entries "config" ("/conf/" ++ env.CollectorConfigMapEntry)
    (argsBefore inst objs)
  refine ⟨_, _, argsOf env inst objs, _, deployment_carrying env c inst log objs heap, rfl, hp,
    ?_, ?_, ?_, ?_⟩
  · rcases h : inst.Spec.Args with _ | b
    · exact Or.inr rfl
    · left
      simp [OpenTelemetryService.argsRef, h, State.deref, State.carrying, objectsAfter,
        store_same]
  · rw [lookup_argsOf, if_pos rfl]
  · have hfil := hp.filter (fun e => decide (e.1 = "config"))
    rw [argsOf, hf] at hfil
    exact List.perm_singleton.mp hfil
  · rw [← flag_config]
    apply List.mem_map_of_mem
    apply hp.symm.subset
    simp [argsOf, AList.insert_entries]

/-- C3.  The descriptor is named after the instance name followed by
`-collector` and keeps the instance namespace; the empty name gives
`-collector`; and any other call on an instance of the same name, whatever else
differs, gives the same name. -/
theorem deployment_name_and_namespace (env : Env) (c : GoMap) (inst : OpenTelemetryService)
    (log : List String) (objs : Nat → GoMap) (heap : List GoMap) :
    ∃ d s', deployment (env.withLabels c) (State.carrying inst log objs heap) = some (d, s') ∧
      d.ObjectMeta.Name = inst.Name ++ "-collector" ∧
      d.ObjectMeta.Namespace = inst.Namespace ∧
      (∃ d0 s0, deployment (env.withLabels c)
        (State.carrying { inst with Name := "" } log objs heap) = some (d0, s0) ∧
        d0.ObjectMeta.Name = "-collector") ∧
      (∀ (env2 : Env) (c2 : GoMap) (ns2 : String) (ann2 : Option Nat)
        (spec2 : OpenTelemetryServiceSpec) (log2 : List String) (objs2 : Nat → GoMap)
        (heap2 : List GoMap),
        ∃ d2 s2, deployment (env2.withLabels c2)
          (State.carrying ⟨inst.Name, ns2, ann2, spec2⟩ log2 objs2 heap2) = some (d2, s2) ∧
          d2.ObjectMeta.Name = d.ObjectMeta.Name) := by
  refine ⟨_, _, deployment_carrying env c inst log objs heap, rfl, rfl, ?_, ?_⟩
  · refine ⟨_, _, deployment_carrying env c _ log objs heap, ?_⟩
    apply String.ext
    simp [desiredOf]
  · intro env2 c2 ns2 ann2 spec2 log2 objs2 heap2
    exact ⟨_, _, deployment_carrying env2 c2 _ log2 objs2 heap2, rfl⟩

/-- C4.  When the `Get` of the pass, the one for the descriptor's name and
namespace in the state `deployment` leaves, answers not-found, the pass calls
`Create` exactly once (and makes two client calls in all), on the descriptor
returned by `deployment` with the controller reference of the instance attached
and nothing else changed.  Nothing is assumed of the client at other keys. -/
theorem reconcile_not_found_creates (r : ReconcileOpenTelemetryService) (env : Env) (c : GoMap)
    (inst : OpenTelemetryService) (log : List String) (objs : Nat → GoMap)
    (heap : List GoMap) :
    ∃ (d : Deployment) (s' : State),
      deployment (env.withLabels c) (State.carrying inst log objs heap) = some (d, s') ∧
      d.ObjectMeta.Name = inst.Name ++ "-collector" ∧
      d.ObjectMeta.Namespace = inst.Namespace ∧
      ∀ e : Error,
        r.client.Get s' { Name := d.ObjectMeta.Name, Namespace := d.ObjectMeta.Namespace } =
          some e →
        IsNotFound e = true →
        ∃ out : Outcome,
          reconcileDeployment r (env.withLabels c) (State.carrying inst log objs heap) =
            some out ∧
          out.calls.filter Call.isCreate = [.Create (setControllerReference s' d)] ∧
          out.calls.length = 2 ∧
          (setControllerReference s' d).ObjectMeta.OwnerReferences =
            [{ Kind := "OpenTelemetryService", Name := inst.Name, Controller := true }] ∧
          { setControllerReference s' d with ObjectMeta :=
            { (setControllerReference s' d).ObjectMeta with OwnerReferences := [] } } = d := by
  refine ⟨_, _, deployment_carrying env c inst log objs heap, rfl, rfl, ?_⟩
  intro e hg hnf
  have h := reconcileDeployment_carrying r env c inst log objs heap
  have hg' : r.client.Get (State.carrying inst (logAfter inst objs log)
      (objectsAfter env inst objs) (heapAfter env c inst objs heap))
      ⟨inst.Name ++ "-collector", inst.Namespace⟩ = some e := hg
  simp only [hg', hnf, if_true] at h
  exact ⟨_, h, rfl, rfl, rfl, rfl⟩

/-- Witness of C4 on a cluster that lacks only the child of `demo`. -/
theorem reconcile_not_found_creates_witness :
    ∃ (d : Deployment) (s' : State) (out : Outcome),
      deployment (demoEnv.withLabels demoLabels)
        (State.carrying annotatedInstance [] demoObjects []) = some (d, s') ∧
      creatingClient.Get s'
        { Name := d.ObjectMeta.Name, Namespace := d.ObjectMeta.Namespace } =
        some notFoundError ∧
      IsNotFound notFoundError = true ∧
      reconcileDeployment ⟨creatingClient⟩ (demoEnv.withLabels demoLabels)
        (State.carrying annotatedInstance [] demoObjects []) = some out ∧
      out.calls.filter Call.isCreate = [.Create (setControllerReference s' d)] ∧
      out.calls.length = 2 := by
  obtain ⟨d, s', hd, hn, hns, h⟩ := reconcile_not_found_creates ⟨creatingClient⟩ demoEnv
    demoLabels annotatedInstance [] demoObjects []
  have hg : creatingClient.Get s'
      { Name := d.ObjectMeta.Name, Namespace := d.ObjectMeta.Namespace } =
      some notFoundError := by
    rw [hn, hns]
    rfl
  obtain ⟨out, hout, hc, hl, _, _⟩ := h notFoundError hg (by decide)
  exact ⟨d, s', out, hd, hg, by decide, hout, hc, hl⟩

/-- C5.  When the `Get` of the pass succeeds (the child resource exists), the
pass returns nil and makes no `Create` call.  Nothing is assumed of the client
at other keys. -/
theorem reconcile_found_no_create (r : ReconcileOpenTelemetryService) (env : Env) (c : GoMap)
    (inst : OpenTelemetryService) (log : List String) (objs : Nat → GoMap)
    (heap : List GoMap) :
    ∃ (d : Deployment) (s' : State),
      deployment (env.withLabels c) (State.carrying inst log objs heap) = some (d, s') ∧
      d.ObjectMeta.Name = inst.Name ++ "-collector" ∧
      d.ObjectMeta.Namespace = inst.Namespace ∧
      (r.client.Get s' { Name := d.ObjectMeta.Name, Namespace := d.ObjectMeta.Namespace } =
          none →
        ∃ out : Outcome,
          reconcileDeployment r (env.withLabels c) (State.carrying inst log objs heap) =
            some out ∧
          out.err = none ∧
          out.calls.filter Call.isCreate = []) := by
  refine ⟨_, _, deployment_carrying env c inst log objs heap, rfl, rfl, ?_⟩
  intro hg
  have h := reconcileDeployment_carrying r env c inst log objs heap
  have hg' : r.client.Get (State.carrying inst (logAfter inst objs log)
      (objectsAfter env inst objs) (heapAfter env c inst objs heap))
      ⟨inst.Name ++ "-collector", inst.Namespace⟩ = none := hg
  simp only [hg'] at h
  exact ⟨_, h, rfl, rfl⟩

/-- Witness of C5 on a cluster that holds the child of `demo` and nothing else. -/
theorem reconcile_found_no_create_witness :
    ∃ (d : Deployment) (s' : State) (out : Outcome),
      deployment (demoEnv.withLabels demoLabels)
        (State.carrying annotatedInstance [] demoObjects []) = some (d, s') ∧
      existingClient.Get s'
        { Name := d.ObjectMeta.Name, Namespace := d.ObjectMeta.Namespace } = none ∧
      reconcileDeployment ⟨existingClient⟩ (demoEnv.withLabels demoLabels)
        (State.carrying annotatedInstance [] demoObjects []) = some out ∧
      out.err = none ∧
      out.calls.filter Call.isCreate = [] := by
  obtain ⟨d, s', hd, hn, hns, h⟩ := reconcile_found_no_create ⟨existingClient⟩ demoEnv
    demoLabels annotatedInstance [] demoObjects []
  have hg : existingClient.Get s'
      { Name := d.ObjectMeta.Name, Namespace := d.ObjectMeta.Namespace } = none := by
    rw [hn, hns]
    rfl
  obtain ⟨out, hout, he, hc⟩ := h hg
  exact ⟨d, s', out, hd, hg, hout, he, hc⟩

/-- C6.  When the `Get` of the pass fails with an error that is not a not-found
error, the pass returns that very error and makes no `Create` call.  Nothing is
assumed of the client at other keys. -/
theorem reconcile_other_error_propagates (r : ReconcileOpenTelemetryService) (env : Env)
    (c : GoMap) (inst : OpenTelemetryService) (log : List String) (objs : Nat → GoMap)
    (heap : List GoMap) :
    ∃ (d : Deployment) (s' : State),
      deployment (env.withLabels c) (State.carrying inst log objs heap) = some (d, s') ∧
      d.ObjectMeta.Name = inst.Name ++ "-collector" ∧
      d.ObjectMeta.Namespace = inst.Namespace ∧
      ∀ e : Error,
        r.client.Get s' { Name := d.ObjectMeta.Name, Namespace := d.ObjectMeta.Namespace } =
          some e →
        IsNotFound e = false →
        ∃ out : Outcome,
          reconcileDeployment r (env.withLabels c) (State.carrying inst log objs heap) =
            some out ∧
          out.err = some e ∧
          out.calls.filter Call.isCreate = [] := by
  refine ⟨_, _, deployment_carrying env c inst log objs heap, rfl, rfl, ?_⟩
  intro e hg hnf
  have h := reconcileDeployment_carrying r env c inst log objs heap
  have hg' : r.client.Get (State.carrying inst (logAfter inst objs log)
      (objectsAfter env inst objs) (heapAfter env c inst objs heap))
      ⟨inst.Name ++ "-collector", inst.Namespace⟩ = some e := hg
  simp only [hg', hnf, Bool.false_eq_true, if_false] at h
  exact ⟨_, h, rfl, rfl⟩

/-- Witness of C6 on a cluster whose read of the child times out. -/
theorem reconcile_other_error_propagates_witness :
    ∃ (d : Deployment) (s' : State) (out : Outcome),
      deployment (demoEnv.withLabels demoLabels)
        (State.carrying annotatedInstance [] demoObjects []) = some (d, s') ∧
      unreachableClient.Get s'
        { Name := d.ObjectMeta.Name, Namespace := d.ObjectMeta.Namespace } =
        some timeoutError ∧
      IsNotFound timeoutError = false ∧
      reconcileDeployment ⟨unreachableClient⟩ (demoEnv.withLabels demoLabels)
        (State.carrying annotatedInstance [] demoObjects []) = some out ∧
      out.err = some timeoutError ∧
      out.calls.filter Call.isCreate = [] := by
  obtain ⟨d, s', hd, hn, hns, h⟩ := reconcile_other_error_propagates ⟨unreachableClient⟩
    demoEnv demoLabels annotatedInstance [] demoObjects []
  have hg : unreachableClient.Get s'
      { Name := d.ObjectMeta.Name, Namespace := d.ObjectMeta.Namespace } =
      some timeoutError := by
    rw [hn, hns]
    rfl
  obtain ⟨out, hout, he, hc⟩ := h timeoutError hg (by decide)
  exact ⟨d, s', out, hd, hg, by decide, hout, he, hc⟩

/-- C7.  On the not-found path (the `Get` of the pass answers not-found) the
pass returns what `Create` returned for the descriptor, nil or the error itself,
and `Create` is called once.  Nothing is assumed of the client at other keys. -/
theorem reconcile_returns_create_result (r : ReconcileOpenTelemetryService) (env : Env)
    (c : GoMap) (inst : OpenTelemetryService) (log : List String) (objs : Nat → GoMap)
    (heap : List GoMap) :
    ∃ (d : Deployment) (s' : State),
      deployment (env.withLabels c) (State.carrying inst log objs heap) = some (d, s') ∧
      d.ObjectMeta.Name = inst.Name ++ "-collector" ∧
      d.ObjectMeta.Namespace = inst.Namespace ∧
      ∀ e : Error,
        r.client.Get s' { Name := d.ObjectMeta.Name, Namespace := d.ObjectMeta.Namespace } =
          some e →
        IsNotFound e = true →
        ∃ out : Outcome,
          reconcileDeployment r (env.withLabels c) (State.carrying inst log objs heap) =
            some out ∧
          out.err = r.client.Create s' (setControllerReference s' d) ∧
          out.calls.filter Call.isCreate = [.Create (setControllerReference s' d)] := by
  refine ⟨_, _, deployment_carrying env c inst log objs heap, rfl, rfl, ?_⟩
  intro e hg hnf
  have h := reconcileDeployment_carrying r env c inst log objs heap
  have hg' : r.client.Get (State.carrying inst (logAfter inst objs log)
      (objectsAfter env inst objs) (heapAfter env c inst objs heap))
      ⟨inst.Name ++ "-collector", inst.Namespace⟩ = some e := hg
  simp only [hg', hnf, if_true] at h
  exact ⟨_, h, rfl, rfl⟩

/-- Witness of C7 on a cluster that lacks only the child of `demo` and whose
creation meets an already-exists conflict: the pass returns that error. -/
theorem reconcile_returns_create_result_witness :
    ∃ (d : Deployment) (s' : State) (out : Outcome),
      deployment (demoEnv.withLabels demoLabels)
        (State.carrying annotatedInstance [] demoObjects []) = some (d, s') ∧
      conflictingClient.Get s'
        { Name := d.ObjectMeta.Name, Namespace := d.ObjectMeta.Namespace } =
        some notFoundError ∧
      IsNotFound notFoundError = true ∧
      reconcileDeployment ⟨conflictingClient⟩ (demoEnv.withLabels demoLabels)
        (State.carrying annotatedInstance [] demoObjects []) = some out ∧
      out.err = some alreadyExistsError ∧
      out.calls.filter Call.isCreate = [.Create (setControllerReference s' d)] := by
  obtain ⟨d, s', hd, hn, hns, h⟩ := reconcile_returns_create_result ⟨conflictingClient⟩
    demoEnv demoLabels annotatedInstance [] demoObjects []
  have hg : conflictingClient.Get s'
      { Name := d.ObjectMeta.Name, Namespace := d.ObjectMeta.Namespace } =
      some notFoundError := by
    rw [hn, hns]
    rfl
  obtain ⟨out, hout, he, hc⟩ := h notFoundError hg (by decide)
  exact ⟨d, s', out, hd, hg, by decide, hout, he, hc⟩

/-- On an instance whose argument map is not its annotation map, the
pod-template annotations, read after the call, map the three prometheus.io keys
to their fixed values and every other key to what the instance's annotations
gave for it before the call. -/
theorem deployment_pod_annotations_distinct (env : Env) (c : GoMap)
    (inst : OpenTelemetryService) (log : List String) (objs : Nat → GoMap) (heap : List GoMap)
    (hsep : ¬ (inst.Annotations.isSome ∧ inst.Spec.Args = inst.Annotations)) :
    ∃ (d : Deployment) (s' : State) (m : GoMap),
      deployment (env.withLabels c) (State.carrying inst log objs heap) = some (d, s') ∧
      s'.deref d.Spec.Template.ObjectMeta.Annotations = some m ∧
      ∀ k : String, m.lookup k =
        if k = "prometheus.io/scrape" then some "true"
        else if k = "prometheus.io/port" then some "8888"
        else if k = "prometheus.io/path" then some "/metrics"
        else inst.Annotations.bind fun a => (objs a).lookup k := by
  refine ⟨_, _, _, deployment_carrying env c inst log objs heap,
    deref_annotations_after env c inst log objs heap, ?_⟩
  intro k
  rw [lookup_annotationsOf]
  have hn : ¬ (inst.Annotations.isSome ∧ inst.Spec.Args = inst.Annotations ∧ k = "config") :=
    fun h => hsep ⟨h.1, h.2.1⟩
  rw [if_neg hn]

/-- C8 (the code departs from the claim).  On an instance whose annotations and
arguments are one map object, holding `team` alone, the pod-template
annotations read after the call hold the key `config`, which is neither a key of
the instance's annotations nor one of the three prometheus.io keys. -/
theorem deployment_shared_map_annotations :
    ∃ (d : Deployment) (s' : State) (m : GoMap),
      deployment (demoEnv.withLabels demoLabels)
        (State.carrying sharedInstance [] demoObjects []) = some (d, s') ∧
      sharedInstance.Annotations = sharedInstance.Spec.Args ∧
      (((State.carrying sharedInstance [] demoObjects []).deref
        sharedInstance.annotationsRef).bind fun a => a.lookup "config") = none ∧
      s'.deref d.Spec.Template.ObjectMeta.Annotations = some m ∧
      m.lookup "config" = some "/conf/collector.yaml" ∧
      m.lookup "team" = some "obs" ∧
      m.lookup "prometheus.io/scrape" = some "true" :=
  ⟨_, _, _, deployment_carrying demoEnv demoLabels sharedInstance [] demoObjects [], rfl,
    by decide, deref_annotations_after demoEnv demoLabels sharedInstance [] demoObjects [],
    by decide, by decide, by decide⟩

/-- C9 (the code departs from the claim).  On an instance with a non-nil
annotation map that has no prometheus.io key, the top-level annotations of the
descriptor are the very map object of the pod-template annotations, and read
after the call they hold the scrape keys the instance never supplied. -/
theorem deployment_top_level_annotations_shared :
    ∃ (d : Deployment) (s' : State) (m : GoMap),
      deployment (demoEnv.withLabels demoLabels)
        (State.carrying annotatedInstance [] demoObjects []) = some (d, s') ∧
      d.ObjectMeta.Annotations = d.Spec.Template.ObjectMeta.Annotations ∧
      s'.deref d.ObjectMeta.Annotations = some m ∧
      (((State.carrying annotatedInstance [] demoObjects []).deref
        annotatedInstance.annotationsRef).bind fun a => a.lookup "prometheus.io/scrape") =
        none ∧
      m.lookup "prometheus.io/scrape" = some "true" ∧
      m.lookup "prometheus.io/port" = some "8888" ∧
      m.lookup "prometheus.io/path" = some "/metrics" ∧
      m.lookup "team" = some "obs" :=
  ⟨_, _, _, deployment_carrying demoEnv demoLabels annotatedInstance [] demoObjects [], rfl,
    deref_annotations_after demoEnv demoLabels annotatedInstance [] demoObjects [],
    by decide, by decide, by decide, by decide, by decide⟩

/-- C10.  The selector match-labels, the pod-template labels and the top-level
labels of the descriptor are one map object, and read after the call it holds
the common labels with `app.kubernetes.io/name` set to the derived name. -/
theorem deployment_labels (env : Env) (c : GoMap) (inst : OpenTelemetryService)
    (log : List String) (objs : Nat → GoMap) (heap : List GoMap) :
    ∃ (d : Deployment) (s' : State) (m : GoMap),
      deployment (env.withLabels c) (State.carrying inst log objs heap) = some (d, s') ∧
      d.Spec.Selector = some { MatchLabels := d.ObjectMeta.Labels } ∧
      d.Spec.Template.ObjectMeta.Labels = d.ObjectMeta.Labels ∧
      s'.deref d.ObjectMeta.Labels = some m ∧
      m = c.insert "app.kubernetes.io/name" (inst.Name ++ "-collector") ∧
      ∀ k : String, m.lookup k =
        if k = "app.kubernetes.io/name" then some (inst.Name ++ "-collector") else c.lookup k := by
  refine ⟨_, _, _, deployment_carrying env c inst log objs heap, rfl, rfl,
    deref_labels_after env c inst inst _ objs _ heap, rfl, ?_⟩
  intro k
  unfold labelsOf
  rw [lookup_insert_ite]

/-! ## Lemmas for repeated passes and for instances that differ in `config` -/

/-- A string has no bytes exactly when it is the empty string. -/
theorem utf8ByteSize_eq_zero_iff (s : String) : s.utf8ByteSize = 0 ↔ s = "" := by
  constructor
  · intro h
    cases s with | mk l =>
    cases l with
    | nil => rfl
    | cons ch t =>
      simp only [String.utf8ByteSize, String.utf8ByteSize.go] at h
      have hpos := Char.utf8Size_pos ch
      omega
  · rintro rfl
    rfl

/-- A map allocated before a pass is left as it was by the pass. -/
theorem deref_allocated_heapAfter (env : Env) (c : GoMap) (inst i : OpenTelemetryService)
    (log : List String) (objs objs' : Nat → GoMap) (heap : List GoMap) (n : Nat) (m : GoMap)
    (h : heap.get? n = some m) :
    (State.carrying i log objs' (heapAfter env c inst objs heap)).deref (.allocated n) =
      some m := by
  have hn : n < heap.length := by
    by_contra hge
    rw [List.get?_eq_none.mpr (Nat.le_of_not_lt hge)] at h
    exact Option.noConfusion h
  simp only [State.deref, State.carrying, heapAfter, List.append_assoc]
  rw [List.get?_eq_getElem?, List.getElem?_append_left hn, ← List.get?_eq_getElem?, h]

/-- The pod-template annotations returned by a pass, read after a further pass
on the same instance, are those the further pass returns. -/
theorem deref_annotations_after_second (env env2 : Env) (c : GoMap)
    (inst : OpenTelemetryService) (log log2 : List String) (objs : Nat → GoMap)
    (heap : List GoMap) :
    (State.carrying inst log2 (objectsAfter env2 inst (objectsAfter env inst objs))
      (heapAfter env2 c inst (objectsAfter env inst objs) (heapAfter env c inst objs heap))).deref
      (desiredOf env inst objs heap.length).Spec.Template.ObjectMeta.Annotations =
      some (annotationsOf env2 inst (objectsAfter env inst objs)) := by
  have h1 := deref_annotations_after env c inst log objs heap
  rcases h : inst.Annotations with _ | a
  · simp only [desiredOf, annotationsOf, h, State.deref, State.carrying] at h1
    simp only [desiredOf, annotationsOf, h]
    exact deref_allocated_heapAfter env2 c inst inst log2 _ _ _ _ _ h1
  · simp [desiredOf, annotationsOf, h, State.deref, State.carrying]

/-- A further pass computes pointwise the same pod-template annotations. -/
theorem lookup_annotationsOf_twice (env env2 : Env) (inst : OpenTelemetryService)
    (objs : Nat → GoMap) (he : env2.CollectorConfigMapEntry = env.CollectorConfigMapEntry)
    (k : String) :
    (annotationsOf env2 inst (objectsAfter env inst objs)).lookup k =
      (annotationsOf env inst objs).lookup k := by
  rcases h : inst.Annotations with _ | a
  · simp [annotationsOf, h]
  · simp only [annotationsOf, h]
    exact lookup_objectsAfter_twice env env2 inst objs he a k

/-- The pod-template annotations do not depend on the argument map unless it is
the annotation map. -/
theorem annotationsOf_distinct (env : Env) (inst : OpenTelemetryService) (objs : Nat → GoMap)
    (hsep : ¬ (inst.Annotations.isSome ∧ inst.Spec.Args = inst.Annotations)) :
    annotationsOf env inst objs =
      match inst.Annotations with
      | some a => withScrape (objs a)
      | none => withScrape ∅ := by
  obtain ⟨n, ns, ann, ⟨img, rep, ar⟩⟩ := inst
  rcases ann with _ | a
  · rfl
  · rcases ar with _ | b
    · simp [annotationsOf, objectsAfter, objectsScraped, store_same]
    · have hab : a ≠ b := fun e => hsep ⟨rfl, by rw [e]⟩
      simp [annotationsOf, objectsAfter, objectsScraped, store_same,
        store_other _ _ _ _ hab]

/-- The argument map line 67 tests is the instance's own unless that is the
annotation map. -/
theorem argsBefore_distinct (inst : OpenTelemetryService) (objs : Nat → GoMap)
    (hsep : ¬ (inst.Annotations.isSome ∧ inst.Spec.Args = inst.Annotations)) :
    argsBefore inst objs = (inst.Spec.Args.map objs).getD ∅ := by
  obtain ⟨n, ns, ann, ⟨img, rep, ar⟩⟩ := inst
  rcases ar with _ | b
  · rfl
  · rcases ann with _ | a
    · simp [argsBefore, objectsScraped]
    · have hab : b ≠ a := fun e => hsep ⟨rfl, by rw [e]⟩
      simp [argsBefore, objectsScraped, store_other _ _ _ _ hab]

/-- Argument maps that agree off `config` give, once `config` is assigned the
fixed path, the same entries up to order. -/
theorem argsOf_entries_perm (env env2 : Env) (i1 i2 : OpenTelemetryService)
    (objs1 objs2 : Nat → GoMap)
    (he : env2.CollectorConfigMapEntry = env.CollectorConfigMapEntry)
    (h : ∀ k : String, k ≠ "config" →
      (argsBefore i1 objs1).lookup k = (argsBefore i2 objs2).lookup k) :
    (argsOf env i1 objs1).entries.Perm (argsOf env2 i2 objs2).entries := by
  apply entries_perm_of_lookup
  intro k
  rw [lookup_argsOf, lookup_argsOf, he]
  by_cases hc : k = "config"
  · simp [hc]
  · simp [hc, h k hc]

/-! ## The claims, continued -/

/-- C11.  The image of the single container is the instance's image when that
is not the empty string and the configured default otherwise; with both empty
`deployment` still returns a descriptor, whose image is the empty string. -/
theorem deployment_image (env : Env) (c : GoMap) (inst : OpenTelemetryService)
    (log : List String) (objs : Nat → GoMap) (heap : List GoMap) :
    ∃ (d : Deployment) (s' : State),
      deployment (env.withLabels c) (State.carrying inst log objs heap) = some (d, s') ∧
      d.Spec.Template.Spec.Containers.map Container.Image =
        [if inst.Spec.Image = "" then env.OtelSvcImage else inst.Spec.Image] ∧
      ∃ (d0 : Deployment) (s0 : State),
        deployment ({ env with OtelSvcImage := "" }.withLabels c)
          (State.carrying { inst with Spec := { inst.Spec with Image := "" } } log objs heap) =
          some (d0, s0) ∧
        d0.Spec.Template.Spec.Containers.map Container.Image = [""] := by
  refine ⟨_, _, deployment_carrying env c inst log objs heap, ?_, _, _,
    deployment_carrying { env with OtelSvcImage := "" } c _ log objs heap, ?_⟩
  · by_cases h : inst.Spec.Image = ""
    · have hz : inst.Spec.Image.utf8ByteSize = 0 := (utf8ByteSize_eq_zero_iff _).mpr h
      simp only [desiredOf, List.map_cons, List.map_nil, if_pos hz, if_pos h]
    · have h0 : ¬ inst.Spec.Image.utf8ByteSize = 0 := fun hz =>
        h ((utf8ByteSize_eq_zero_iff _).mp hz)
      simp only [desiredOf, List.map_cons, List.map_nil, if_neg h0, if_neg h]
  · have hz : ("" : String).utf8ByteSize = 0 := rfl
    simp only [desiredOf, List.map_cons, List.map_nil, if_pos hz]

/-- On an instance whose argument map is not its annotation map, the argument
list is, up to order, the list of flags of the entries of the instance's
argument map with `config` assigned the fixed path, one element per key of that
map. -/
theorem deployment_argument_list_distinct (env : Env) (c : GoMap)
    (inst : OpenTelemetryService) (log : List String) (objs : Nat → GoMap) (heap : List GoMap)
    (hsep : ¬ (inst.Annotations.isSome ∧ inst.Spec.Args = inst.Annotations)) :
    ∃ (d : Deployment) (s' : State) (args : List String),
      deployment (env.withLabels c) (State.carrying inst log objs heap) = some (d, s') ∧
      d.Spec.Template.Spec.Containers.map Container.Args = [args] ∧
      args.Perm ((((inst.Spec.Args.map objs).getD ∅).insert "config"
        ("/conf/" ++ env.CollectorConfigMapEntry)).entries.map flag) ∧
      args.length = (((inst.Spec.Args.map objs).getD ∅).insert "config"
        ("/conf/" ++ env.CollectorConfigMapEntry)).keys.length := by
  have hp := env.rangeOrder.perm (argsOf env inst objs).entries
  have ha : argsOf env inst objs = ((inst.Spec.Args.map objs).getD ∅).insert "config"
      ("/conf/" ++ env.CollectorConfigMapEntry) := by
    rw [argsOf, argsBefore_distinct inst objs hsep]
  refine ⟨_, _, _, deployment_carrying env c inst log objs heap, rfl, ?_, ?_⟩
  · rw [← ha]
    exact hp.map flag
  · rw [← ha, List.length_map, hp.length_eq]
    simp [AList.keys, List.keys]

/-- C12 (the code departs from the claim).  On an instance whose annotations and
arguments are one map object, holding `team` alone, the argument list has five
elements, three of them flags of the prometheus.io annotations, where the
instance's argument map with `config` added has two keys. -/
theorem deployment_shared_map_arguments :
    ∃ (d : Deployment) (s' : State) (m : GoMap),
      deployment (demoEnv.withLabels demoLabels)
        (State.carrying sharedInstance [] demoObjects []) = some (d, s') ∧
      sharedInstance.Annotations = sharedInstance.Spec.Args ∧
      (State.carrying sharedInstance [] demoObjects []).deref sharedInstance.argsRef =
        some m ∧
      (m.insert "config" "/conf/collector.yaml").keys = ["config", "team"] ∧
      d.Spec.Template.Spec.Containers.map Container.Args =
        [["--config=/conf/collector.yaml", "--prometheus.io/path=/metrics",
          "--prometheus.io/port=8888", "--prometheus.io/scrape=true", "--team=obs"]] :=
  ⟨_, _, _, deployment_carrying demoEnv demoLabels sharedInstance [] demoObjects [], rfl,
    rfl, by decide, by decide⟩

/-- C13.  Two successive calls on the same instance object, the second one free
to visit the argument map in another order, return descriptors with the same
name, namespace, label contents, top-level annotations, pod-template annotation
contents, replicas, container name, image, volume mounts and volumes, and with
argument lists that are rearrangements of one another. -/
theorem deployment_twice_same_descriptor (env : Env) (ord2 : RangeOrder) (c : GoMap)
    (inst : OpenTelemetryService) (log : List String) (objs : Nat → GoMap)
    (heap : List GoMap) :
    ∃ (d1 d2 : Deployment) (s1 s2 : State) (l a0 a1 a2 : GoMap) (args1 args2 : List String),
      deployment (env.withLabels c) (State.carrying inst log objs heap) = some (d1, s1) ∧
      deployment ({ env with rangeOrder := ord2 }.withLabels c) s1 = some (d2, s2) ∧
      d1.ObjectMeta.Name = d2.ObjectMeta.Name ∧
      d1.ObjectMeta.Namespace = d2.ObjectMeta.Namespace ∧
      s2.deref d1.ObjectMeta.Labels = some l ∧
      s2.deref d2.ObjectMeta.Labels = some l ∧
      s2.deref d1.Spec.Template.ObjectMeta.Labels = some l ∧
      s2.deref d2.Spec.Template.ObjectMeta.Labels = some l ∧
      d1.ObjectMeta.Annotations = d2.ObjectMeta.Annotations ∧
      s1.deref d1.Spec.Template.ObjectMeta.Annotations = some a0 ∧
      s2.deref d1.Spec.Template.ObjectMeta.Annotations = some a1 ∧
      s2.deref d2.Spec.Template.ObjectMeta.Annotations = some a2 ∧
      (∀ k : String, a0.lookup k = a2.lookup k) ∧
      (∀ k : String, a1.lookup k = a2.lookup k) ∧
      d1.Spec.Replicas = d2.Spec.Replicas ∧
      d1.Spec.Template.Spec.Containers.map Container.Name =
        d2.Spec.Template.Spec.Containers.map Container.Name ∧
      d1.Spec.Template.Spec.Containers.map Container.Image =
        d2.Spec.Template.Spec.Containers.map Container.Image ∧
      d1.Spec.Template.Spec.Containers.map Container.VolumeMounts =
        d2.Spec.Template.Spec.Containers.map Container.VolumeMounts ∧
      d1.Spec.Template.Spec.Volumes = d2.Spec.Template.Spec.Volumes ∧
      d1.Spec.Template.Spec.Containers.map Container.Args = [args1] ∧
      d2.Spec.Template.Spec.Containers.map Container.Args = [args2] ∧
      args1.Perm args2 := by
  have hl1 := deref_labels_after env c inst inst (logAfter inst objs log) objs
    (objectsAfter env inst objs) heap
  simp only [State.deref, State.carrying] at hl1
  have hl2 := deref_labels_after { env with rangeOrder := ord2 } c inst inst
    (logAfter inst (objectsAfter env inst objs) (logAfter inst objs log))
    (objectsAfter env inst objs)
    (objectsAfter { env with rangeOrder := ord2 } inst (objectsAfter env inst objs))
    (heapAfter env c inst objs heap)
  have hperm : (argsOf env inst objs).entries.Perm
      (argsOf { env with rangeOrder := ord2 } inst (objectsAfter env inst objs)).entries :=
    entries_perm_of_lookup _ _ fun k =>
      (lookup_argsOf_twice env { env with rangeOrder := ord2 } inst objs rfl k).symm
  refine ⟨_, _, _, _, labelsOf c inst, annotationsOf env inst objs,
    annotationsOf { env with rangeOrder := ord2 } inst (objectsAfter env inst objs),
    annotationsOf { env with rangeOrder := ord2 } inst (objectsAfter env inst objs), _, _,
    deployment_carrying env c inst log objs heap,
    deployment_carrying { env with rangeOrder := ord2 } c inst (logAfter inst objs log)
      (objectsAfter env inst objs) (heapAfter env c inst objs heap),
    rfl, rfl, ?_, hl2, ?_, hl2, rfl,
    deref_annotations_after env c inst log objs heap,
    deref_annotations_after_second env { env with rangeOrder := ord2 } c inst log _ objs heap,
    deref_annotations_after { env with rangeOrder := ord2 } c inst (logAfter inst objs log)
      (objectsAfter env inst objs) (heapAfter env c inst objs heap),
    fun k => (lookup_annotationsOf_twice env { env with rangeOrder := ord2 } inst objs rfl
      k).symm,
    fun _ => rfl, rfl, rfl, rfl, rfl, rfl, rfl, rfl, ?_⟩
  · exact deref_allocated_heapAfter { env with rangeOrder := ord2 } c inst inst _ _ _ _ _ _ hl1
  · exact deref_allocated_heapAfter { env with rangeOrder := ord2 } c inst inst _ _ _ _ _ _ hl1
  · exact (((env.rangeOrder.perm _).trans hperm).trans (ord2.perm _).symm).map flag

/-- C14.  On a context that carries an instance and a logger, with a non-nil
common-label map, `deployment` returns a descriptor; in particular it does for
the instance with the empty name, the empty image, nil annotations and a nil
argument map. -/
theorem deployment_total (env : Env) (c : GoMap) (inst : OpenTelemetryService)
    (log : List String) (objs : Nat → GoMap) (heap : List GoMap) :
    (∃ (d : Deployment) (s' : State),
      deployment (env.withLabels c) (State.carrying inst log objs heap) = some (d, s')) ∧
    ∃ (d0 : Deployment) (s0 : State),
      deployment (env.withLabels c)
        (State.carrying
          { Name := "", Namespace := inst.Namespace, Annotations := none,
            Spec := { Image := "", Replicas := inst.Spec.Replicas, Args := none } }
          log objs heap) =
        some (d0, s0) :=
  ⟨⟨_, _, deployment_carrying env c inst log objs heap⟩,
    ⟨_, _, deployment_carrying env c _ log objs heap⟩⟩

/-- C15.  The descriptor has one container, named `opentelemetry-service`, with
one volume mount at `/conf` named after the descriptor, and one volume named
after the descriptor, from the config map of that name, with the single item
whose key and path are `CollectorConfigMapEntry`. -/
theorem deployment_container_and_volume (env : Env) (c : GoMap) (inst : OpenTelemetryService)
    (log : List String) (objs : Nat → GoMap) (heap : List GoMap) :
    ∃ (d : Deployment) (s' : State) (ct : Container),
      deployment (env.withLabels c) (State.carrying inst log objs heap) = some (d, s') ∧
      d.Spec.Template.Spec.Containers = [ct] ∧
      ct.Name = "opentelemetry-service" ∧
      ct.VolumeMounts = [{ Name := d.ObjectMeta.Name, MountPath := "/conf" }] ∧
      d.Spec.Template.Spec.Volumes =
        [{ Name := d.ObjectMeta.Name
           ConfigMap := some
            { Name := d.ObjectMeta.Name
              Items := [{ Key := env.CollectorConfigMapEntry,
                          Path := env.CollectorConfigMapEntry }] } }] ∧
      d.ObjectMeta.Name = inst.Name ++ "-collector" :=
  ⟨_, _, _, deployment_carrying env c inst log objs heap, rfl, rfl, rfl, rfl, rfl⟩

/-- C16.  Whatever the client answers, a pass makes exactly one `Get`, first,
with the key made of the descriptor's name and namespace (the instance name
followed by `-collector`, the instance namespace); every other call is a
`Create`, and there is one when `Get` answered not-found and none otherwise. -/
theorem reconcile_client_calls (r : ReconcileOpenTelemetryService) (env : Env) (c : GoMap)
    (inst : OpenTelemetryService) (log : List String) (objs : Nat → GoMap)
    (heap : List GoMap) :
    ∃ (d : Deployment) (s' : State) (out : Outcome),
      deployment (env.withLabels c) (State.carrying inst log objs heap) = some (d, s') ∧
      reconcileDeployment r (env.withLabels c) (State.carrying inst log objs heap) = some out ∧
      out.calls.filter Call.isGet =
        [.Get { Name := inst.Name ++ "-collector", Namespace := inst.Namespace }] ∧
      d.ObjectMeta.Name = inst.Name ++ "-collector" ∧
      d.ObjectMeta.Namespace = inst.Namespace ∧
      out.calls = .Get { Name := d.ObjectMeta.Name, Namespace := d.ObjectMeta.Namespace } ::
        out.calls.filter Call.isCreate ∧
      (out.calls.filter Call.isCreate).length =
        (match r.client.Get s' { Name := d.ObjectMeta.Name, Namespace := d.ObjectMeta.Namespace } with
        | some e => if IsNotFound e then 1 else 0
        | none => 0) := by
  have h := reconcileDeployment_carrying r env c inst log objs heap
  cases hg : r.client.Get (State.carrying inst (logAfter inst objs log)
    (objectsAfter env inst objs) (heapAfter env c inst objs heap))
    ⟨inst.Name ++ "-collector", inst.Namespace⟩ with
  | none =>
    simp only [hg] at h
    refine ⟨_, _, _, deployment_carrying env c inst log objs heap, h, rfl, rfl, rfl, rfl, ?_⟩
    simp only [desiredOf, hg]
    rfl
  | some e =>
    by_cases hnf : IsNotFound e = true
    · simp only [hg, hnf, if_true] at h
      refine ⟨_, _, _, deployment_carrying env c inst log objs heap, h, rfl, rfl, rfl, rfl, ?_⟩
      simp only [desiredOf, hg, hnf, if_true]
      rfl
    · simp only [hg, hnf] at h
      refine ⟨_, _, _, deployment_carrying env c inst log objs heap, h, rfl, rfl, rfl, rfl, ?_⟩
      simp only [desiredOf, hg, hnf]
      rfl

/-- C17 (counterexample).  In the scenario the order of the two arguments is not
fixed: visiting the argument map as stored gives `--config=…` first, visiting it
in reverse gives `--log-level=debug` first, which is not sorted by key. -/
theorem scenario_arguments_order_varies :
    ∃ (d1 d2 : Deployment) (s1 s2 : State),
      deployment ((scenarioEnv RangeOrder.stored).withLabels demoLabels)
        (State.carrying scenarioInstance [] demoObjects []) = some (d1, s1) ∧
      deployment ((scenarioEnv RangeOrder.reversed).withLabels demoLabels)
        (State.carrying scenarioInstance [] demoObjects []) = some (d2, s2) ∧
      d1.Spec.Template.Spec.Containers.map Container.Args =
        [["--config=/conf/collector.yaml", "--log-level=debug"]] ∧
      d2.Spec.Template.Spec.Containers.map Container.Args =
        [["--log-level=debug", "--config=/conf/collector.yaml"]] ∧
      d1.Spec.Template.Spec.Containers.map Container.Args ≠
        d2.Spec.Template.Spec.Containers.map Container.Args :=
  ⟨_, _, _, _,
    deployment_carrying (scenarioEnv RangeOrder.stored) demoLabels scenarioInstance []
      demoObjects [],
    deployment_carrying (scenarioEnv RangeOrder.reversed) demoLabels scenarioInstance []
      demoObjects [],
    by decide, by decide, by decide⟩

/-- C17 (amended).  In the scenario, for every order in which `range` may visit
the argument map, the descriptor is named `demo-collector`, its image is
`otel/collector:latest`, its argument list is a rearrangement of
`--config=/conf/collector.yaml` and `--log-level=debug`, and its pod-template
annotations hold the three scrape entries. -/
theorem scenario_descriptor (ord : RangeOrder) (c : GoMap) (log : List String)
    (heap : List GoMap) :
    ∃ (d : Deployment) (s' : State) (args : List String) (m : GoMap),
      deployment ((scenarioEnv ord).withLabels c)
        (State.carrying scenarioInstance log demoObjects heap) = some (d, s') ∧
      d.ObjectMeta.Name = "demo-collector" ∧
      d.Spec.Template.Spec.Containers.map Container.Image = ["otel/collector:latest"] ∧
      d.Spec.Template.Spec.Containers.map Container.Args = [args] ∧
      args.Perm ["--config=/conf/collector.yaml", "--log-level=debug"] ∧
      s'.deref d.Spec.Template.ObjectMeta.Annotations = some m ∧
      m.lookup "prometheus.io/scrape" = some "true" ∧
      m.lookup "prometheus.io/port" = some "8888" ∧
      m.lookup "prometheus.io/path" = some "/metrics" := by
  refine ⟨_, _, _, _,
    deployment_carrying (scenarioEnv ord) c scenarioInstance log demoObjects heap,
    rfl, rfl, rfl, ?_,
    deref_annotations_after (scenarioEnv ord) c scenarioInstance log demoObjects heap,
    rfl, rfl, rfl⟩
  have hp := (ord.perm (argsOf (scenarioEnv ord) scenarioInstance demoObjects).entries).map flag
  have he : (argsOf (scenarioEnv ord) scenarioInstance demoObjects).entries.map flag =
      ["--config=/conf/collector.yaml", "--log-level=debug"] := rfl
  rw [he] at hp
  exact hp

/-- C18.  A call sends the logger the `config` diagnostic once when the
instance's argument map has the key `config` and nothing otherwise, and it
returns a descriptor in both cases. -/
theorem deployment_diagnostic (env : Env) (c : GoMap) (inst : OpenTelemetryService)
    (log : List String) (objs : Nat → GoMap) (heap : List GoMap) :
    ∃ (d : Deployment) (s' : State),
      deployment (env.withLabels c) (State.carrying inst log objs heap) = some (d, s') ∧
      s'.ContextLogger = some (log ++
        if (inst.Spec.Args.bind fun b => (objs b).lookup "config").isSome then
          ["the 'config' flag isn't allowed and is being ignored"]
        else []) := by
  refine ⟨_, _, deployment_carrying env c inst log objs heap, ?_⟩
  simp only [State.carrying, logAfter, lookup_config_argsBefore]
  by_cases hc : (inst.Spec.Args.bind fun b => (objs b).lookup "config").isSome = true <;>
    simp [hc]

/-- C19.  Two instances that agree on everything but what their argument maps
hold under `config`, and of which either both or none have the annotation map
for argument map, get descriptors that agree on every field, on the contents of
the label and annotation maps, and on the arguments up to order. -/
theorem deployment_ignores_user_config (env : Env) (ord2 : RangeOrder) (c : GoMap)
    (inst : OpenTelemetryService) (args2 : Option Nat) (log log2 : List String)
    (objs : Nat → GoMap) (heap : List GoMap)
    (h : ∀ k : String, k ≠ "config" →
      (inst.Spec.Args.bind fun b => (objs b).lookup k) =
        (args2.bind fun b => (objs b).lookup k))
    (hshare : (inst.Annotations.isSome ∧ inst.Spec.Args = inst.Annotations) ↔
      (inst.Annotations.isSome ∧ args2 = inst.Annotations)) :
    ∃ (d1 d2 : Deployment) (s1 s2 : State) (l a : GoMap) (args1 args2' : List String),
      deployment (env.withLabels c) (State.carrying inst log objs heap) = some (d1, s1) ∧
      deployment ({ env with rangeOrder := ord2 }.withLabels c)
        (State.carrying { inst with Spec := { inst.Spec with Args := args2 } } log2 objs heap) =
        some (d2, s2) ∧
      d1.ObjectMeta = d2.ObjectMeta ∧
      d1.Spec.Replicas = d2.Spec.Replicas ∧
      d1.Spec.Selector = d2.Spec.Selector ∧
      d1.Spec.Template.ObjectMeta = d2.Spec.Template.ObjectMeta ∧
      d1.Spec.Template.Spec.Volumes = d2.Spec.Template.Spec.Volumes ∧
      d1.Spec.Template.Spec.Containers.map Container.Name =
        d2.Spec.Template.Spec.Containers.map Container.Name ∧
      d1.Spec.Template.Spec.Containers.map Container.Image =
        d2.Spec.Template.Spec.Containers.map Container.Image ∧
      d1.Spec.Template.Spec.Containers.map Container.VolumeMounts =
        d2.Spec.Template.Spec.Containers.map Container.VolumeMounts ∧
      s1.deref d1.ObjectMeta.Labels = some l ∧
      s2.deref d2.ObjectMeta.Labels = some l ∧
      s1.deref d1.Spec.Template.ObjectMeta.Annotations = some a ∧
      s2.deref d2.Spec.Template.ObjectMeta.Annotations = some a ∧
      s1.deref d1.ObjectMeta.Annotations = s2.deref d2.ObjectMeta.Annotations ∧
      d1.Spec.Template.Spec.Containers.map Container.Args = [args1] ∧
      d2.Spec.Template.Spec.Containers.map Container.Args = [args2'] ∧
      args1.Perm args2' := by
  by_cases hs : inst.Annotations.isSome ∧ inst.Spec.Args = inst.Annotations
  · -- both instances have the annotation map for argument map: they are equal
    have h2 : args2 = inst.Spec.Args := (hshare.mp hs).2.trans hs.2.symm
    subst h2
    refine ⟨_, _, _, _, labelsOf c inst, annotationsOf env inst objs, _, _,
      deployment_carrying env c inst log objs heap,
      deployment_carrying { env with rangeOrder := ord2 } c inst log2 objs heap,
      rfl, rfl, rfl, rfl, rfl, rfl, rfl, rfl,
      deref_labels_after env c inst inst _ objs _ heap,
      deref_labels_after { env with rangeOrder := ord2 } c inst inst _ objs _ heap,
      deref_annotations_after env c inst log objs heap,
      deref_annotations_after { env with rangeOrder := ord2 } c inst log2 objs heap,
      rfl, rfl, rfl, ?_⟩
    exact ((env.rangeOrder.perm _).trans (ord2.perm _).symm).map flag
  · have hs2 : ¬ (inst.Annotations.isSome ∧ args2 = inst.Annotations) := fun x =>
      hs (hshare.mpr x)
    have ha1 := annotationsOf_distinct env inst objs hs
    have ha2 := annotationsOf_distinct { env with rangeOrder := ord2 }
      { inst with Spec := { inst.Spec with Args := args2 } } objs hs2
    have hb1 := argsBefore_distinct inst objs hs
    have hb2 := argsBefore_distinct { inst with Spec := { inst.Spec with Args := args2 } }
      objs hs2
    have hperm := argsOf_entries_perm env { env with rangeOrder := ord2 } inst
      { inst with Spec := { inst.Spec with Args := args2 } } objs objs rfl (by
        intro k hk
        rw [hb1, hb2]
        have hk' := h k hk
        cases hA : inst.Spec.Args <;> cases hB : args2 <;> simp_all)
    have hd2 := deref_annotations_after { env with rangeOrder := ord2 } c
      { inst with Spec := { inst.Spec with Args := args2 } } log2 objs heap
    rw [ha2, ← ha1] at hd2
    have htop : (State.carrying inst (logAfter inst objs log) (objectsAfter env inst objs)
        (heapAfter env c inst objs heap)).deref inst.annotationsRef =
        (State.carrying { inst with Spec := { inst.Spec with Args := args2 } }
          (logAfter { inst with Spec := { inst.Spec with Args := args2 } } objs log2)
          (objectsAfter { env with rangeOrder := ord2 }
            { inst with Spec := { inst.Spec with Args := args2 } } objs)
          (heapAfter { env with rangeOrder := ord2 } c
            { inst with Spec := { inst.Spec with Args := args2 } } objs heap)).deref
          inst.annotationsRef := by
      rcases hA : inst.Annotations with _ | a
      · simp [OpenTelemetryService.annotationsRef, hA, State.deref]
      · have e1 := ha1
        have e2 := ha2
        simp only [annotationsOf, hA] at e1 e2
        simp only [OpenTelemetryService.annotationsRef, hA, State.deref, State.carrying, e1, e2]
    exact ⟨_, _, _, _, labelsOf c inst, annotationsOf env inst objs, _, _,
      deployment_carrying env c inst log objs heap,
      deployment_carrying { env with rangeOrder := ord2 } c _ log2 objs heap,
      rfl, rfl, rfl, rfl, rfl, rfl, rfl, rfl,
      deref_labels_after env c inst inst _ objs _ heap,
      deref_labels_after { env with rangeOrder := ord2 } c _ _ _ objs _ heap,
      deref_annotations_after env c inst log objs heap, hd2, htop, rfl, rfl,
      (((env.rangeOrder.perm _).trans hperm).trans (ord2.perm _).symm).map flag⟩

/-- Witness of C19 on an instance without `config` and the same instance with
`config` set by its author, the second visited in reverse order. -/
theorem deployment_ignores_user_config_witness :
    (∀ k : String, k ≠ "config" →
      (annotatedInstance.Spec.Args.bind fun b => (demoObjects b).lookup k) =
        (configuredInstance.Spec.Args.bind fun b => (demoObjects b).lookup k)) ∧
    ((annotatedInstance.Annotations.isSome ∧
        annotatedInstance.Spec.Args = annotatedInstance.Annotations) ↔
      (annotatedInstance.Annotations.isSome ∧
        configuredInstance.Spec.Args = annotatedInstance.Annotations)) ∧
    ∃ (d1 d2 : Deployment) (s1 s2 : State) (l a : GoMap) (args1 args2' : List String),
      deployment (demoEnv.withLabels demoLabels)
        (State.carrying annotatedInstance [] demoObjects []) = some (d1, s1) ∧
      deployment ({ demoEnv with rangeOrder := RangeOrder.reversed }.withLabels demoLabels)
        (State.carrying { annotatedInstance with
          Spec := { annotatedInstance.Spec with Args := configuredInstance.Spec.Args } }
          [] demoObjects []) = some (d2, s2) ∧
      d1.ObjectMeta = d2.ObjectMeta ∧
      d1.Spec.Replicas = d2.Spec.Replicas ∧
      d1.Spec.Selector = d2.Spec.Selector ∧
      d1.Spec.Template.ObjectMeta = d2.Spec.Template.ObjectMeta ∧
      d1.Spec.Template.Spec.Volumes = d2.Spec.Template.Spec.Volumes ∧
      d1.Spec.Template.Spec.Containers.map Container.Name =
        d2.Spec.Template.Spec.Containers.map Container.Name ∧
      d1.Spec.Template.Spec.Containers.map Container.Image =
        d2.Spec.Template.Spec.Containers.map Container.Image ∧
      d1.Spec.Template.Spec.Containers.map Container.VolumeMounts =
        d2.Spec.Template.Spec.Containers.map Container.VolumeMounts ∧
      s1.deref d1.ObjectMeta.Labels = some l ∧
      s2.deref d2.ObjectMeta.Labels = some l ∧
      s1.deref d1.Spec.Template.ObjectMeta.Annotations = some a ∧
      s2.deref d2.Spec.Template.ObjectMeta.Annotations = some a ∧
      s1.deref d1.ObjectMeta.Annotations = s2.deref d2.ObjectMeta.Annotations ∧
      d1.Spec.Template.Spec.Containers.map Container.Args = [args1] ∧
      d2.Spec.Template.Spec.Containers.map Container.Args = [args2'] ∧
      args1.Perm args2' :=
  have hw : ∀ k : String, k ≠ "config" →
      (annotatedInstance.Spec.Args.bind fun b => (demoObjects b).lookup k) =
        (configuredInstance.Spec.Args.bind fun b => (demoObjects b).lookup k) := by
    intro k hk
    simp only [annotatedInstance, configuredInstance, Option.some_bind, Option.bind,
      demoObjects]
    rw [AList.lookup_insert_ne hk]
  have hs : (annotatedInstance.Annotations.isSome ∧
        annotatedInstance.Spec.Args = annotatedInstance.Annotations) ↔
      (annotatedInstance.Annotations.isSome ∧
        configuredInstance.Spec.Args = annotatedInstance.Annotations) := by decide
  ⟨hw, hs, deployment_ignores_user_config demoEnv RangeOrder.reversed demoLabels
    annotatedInstance configuredInstance.Spec.Args [] [] demoObjects [] hw hs⟩

/-- C20 (the code departs from the claim).  On an instance whose non-nil
argument map has no `config` key, the first call sends no diagnostic and the
second call on the same instance object sends the `config` diagnostic. -/
theorem deployment_second_pass_reports_config :
    ∃ (d1 d2 : Deployment) (s1 s2 : State),
      deployment (demoEnv.withLabels demoLabels)
        (State.carrying annotatedInstance [] demoObjects []) = some (d1, s1) ∧
      deployment (demoEnv.withLabels demoLabels) s1 = some (d2, s2) ∧
      (((State.carrying annotatedInstance [] demoObjects []).deref
        annotatedInstance.argsRef).bind fun m => m.lookup "config") = none ∧
      s1.ContextLogger = some [] ∧
      s2.ContextLogger = some ["the 'config' flag isn't allowed and is being ignored"] :=
  ⟨_, _, _, _, deployment_carrying demoEnv demoLabels annotatedInstance [] demoObjects [],
    deployment_carrying demoEnv demoLabels _ _ _ _, by decide, by decide, by decide⟩

end Otel
